import Mathlib

/-!
Shallow embedding of the organization-token authentication and tenant
scoping layer of openwisp-radius (src/openwisp_radius/api/views.py),
together with theorems settling the spec claims about it.

Conventions of the embedding:
- Python strings are Lean String; an optional value (absent query
  parameter, Django cache miss) is Option String.
- Python truthiness of an optional string (falsy when absent or empty)
  is the function truthy below.
- The Django cache is an association list; cacheGet returns the first
  binding, cacheSet prepends (last-writer-wins under cacheGet).
- Raising an exception is returning Except.error; the exception classes
  AuthenticationFailed and ParseError are the two AuthError constructors,
  each carrying its message string.
- Database tables are lists of records; a Django objects.get with unique
  filters is List.find? (under the uniqueness invariants of the data
  model the two coincide).
-/

namespace OpenwispRadius

/-- Python truthiness of an optional string: falsy when absent (None) or
empty. -/
def truthy : Option String → Bool
  | none => false
  | some s => s != ""

/-- The two exception classes raised by TokenAuthentication, with their
message. AuthenticationFailed is a credential failure; ParseError is a
request-format failure, distinct from it. -/
inductive AuthError where
  | authenticationFailed (msg : String)
  | parseError (msg : String)
deriving DecidableEq, Repr

/-- The module-level message _TOKEN_AUTH_FAILED. -/
def tokenAuthFailedMsg : String := "Token authentication failed"

/-- The message raised by check_organization. -/
def orgParamMsg : String :=
  "setting the organization parameter explicitly is not allowed"

/-- The message of the ParseError raised by get_uuid_token. -/
def invalidTokenMsg : String := "Invalid token"

/-- The parts of an incoming HTTP request consulted by
TokenAuthentication: the uuid and token query parameters
(request.GET), the HTTP_AUTHORIZATION entry of request.META, and the
set of keys of the request body (request.data; only key membership is
consulted by this code). -/
structure Request where
  GET_uuid : Option String
  GET_token : Option String
  HTTP_AUTHORIZATION : Option String
  data : List String
deriving DecidableEq, Repr

/-- The Django cache: an association list of string keys and string
values. -/
abbrev Cache := List (String × String)

/-- cache.get: value of the first binding of the key, None when
absent. -/
def cacheGet (c : Cache) (k : String) : Option String :=
  (c.find? (fun p => p.1 == k)).map (fun p => p.2)

/-- cache.set: prepend the binding; under cacheGet this overwrites any
previous binding of the key. -/
def cacheSet (c : Cache) (k v : String) : Cache :=
  (k, v) :: c

/-- Modelled from the spec (the OrganizationRadiusSettings model lives in
openwisp_radius.models, which is not under src/): one record per
organization, 1:1 with Organization, holding the organization id
(unique) and the shared secret token. -/
structure OrganizationRadiusSettings where
  organization : String
  token : String
deriving DecidableEq, Repr

/-- Modelled from the spec: the identity of an
OrganizationRadiusSettings record is its unique organization id, so its
primary key is that id. -/
def OrganizationRadiusSettings.pk (s : OrganizationRadiusSettings) : String :=
  s.organization

/-- OrganizationRadiusSettings.objects.get(organization=..., token=...):
the record matching both filters, none when it does not exist (DoesNotExist).
Under the invariant of exactly one record per organization at most one
record matches, so find? coincides with Django get. -/
def OrganizationRadiusSettings.objects_get
    (store : List OrganizationRadiusSettings) (orgId tok : String) :
    Option OrganizationRadiusSettings :=
  store.find? (fun s => s.organization == orgId && s.token == tok)

/-- TokenAuthentication.check_organization: raise AuthenticationFailed
when the request body explicitly carries an organization key. -/
def TokenAuthentication.check_organization (r : Request) :
    Except AuthError Unit :=
  if "organization" ∈ r.data then
    .error (.authenticationFailed orgParamMsg)
  else
    .ok ()

/-- Helper for the Python str.split with the single-space separator:
split a character list at every space (code point 32); adjacent
separators yield empty parts and the empty list yields one empty
part. -/
def splitSpaceAux : List Char → List (List Char)
  | [] => [[]]
  | c :: cs =>
    match splitSpaceAux cs with
    | [] => [[c]]
    | r :: rs => if c.toNat = 32 then [] :: r :: rs else (c :: r) :: rs

/-- Python "header".split(single space), as applied to the
Authorization header: defined over the character list so that it
evaluates by kernel reduction (String.splitOn does not). -/
def pySplitSpace (s : String) : List String :=
  (splitSpaceAux s.toList).map (fun cs => ⟨cs⟩)

/-- TokenAuthentication.get_uuid_token: default uuid and token to the
GET parameters; when an Authorization header is present, split it on
single spaces and take parts 1 and 2, raising ParseError (IndexError
caught) when fewer than three parts exist. Python assigns parts[1]
before indexing parts[2], but the raised ParseError discards the
partial assignment, so joint matching is faithful. -/
def TokenAuthentication.get_uuid_token (r : Request) :
    Except AuthError (Option String × Option String) :=
  let uuid := r.GET_uuid
  let token := r.GET_token
  match r.HTTP_AUTHORIZATION with
  | none => .ok (uuid, token)
  | some hdr =>
    let parts := pySplitSpace hdr
    match parts[1]?, parts[2]? with
    | some u, some t => .ok (some u, some t)
    | _, _ => .error (.parseError invalidTokenMsg)

instance {ε α : Type} [DecidableEq ε] [DecidableEq α] :
    DecidableEq (Except ε α) := fun a b =>
  match a, b with
  | .ok x, .ok y => decidable_of_iff (x = y) (by simp)
  | .error x, .error y => decidable_of_iff (x = y) (by simp)
  | .ok _, .error _ => .isFalse (by simp)
  | .error _, .ok _ => .isFalse (by simp)

/-- The observable outcome of TokenAuthentication.authenticate: the
returned value or raised exception, whether the credential store
(OrganizationRadiusSettings.objects) was queried, and the cache state
afterwards. The successful return value (AnonymousUser(), uuid) is
modelled by the uuid, the organization context; the anonymous user
carries no information. -/
structure AuthOutcome where
  result : Except AuthError String
  storeQueried : Bool
  cache : Cache
deriving DecidableEq, Repr

/-- TokenAuthentication.authenticate, line by line:
1. check_organization(request);
2. uuid, token = get_uuid_token(request);
3. fail when either is falsy;
4. when the cache value of the LITERAL KEY "uuid" is falsy (the source
   tests cache.get(the string uuid), not the variable), query the store
   by (organization, token); on DoesNotExist fail, on success
   cache.set(instance.pk, instance.token);
5. otherwise fail when the cached value of the presented uuid differs
   from the presented token;
6. otherwise succeed with the uuid as organization context. -/
def TokenAuthentication.authenticate (r : Request) (c : Cache)
    (store : List OrganizationRadiusSettings) : AuthOutcome :=
  match TokenAuthentication.check_organization r with
  | .error e => ⟨.error e, false, c⟩
  | .ok _ =>
    match TokenAuthentication.get_uuid_token r with
    | .error e => ⟨.error e, false, c⟩
    | .ok (uuidOpt, tokenOpt) =>
      if truthy uuidOpt = false ∨ truthy tokenOpt = false then
        ⟨.error (.authenticationFailed tokenAuthFailedMsg), false, c⟩
      else
        let uuid := uuidOpt.getD ""
        let token := tokenOpt.getD ""
        if truthy (cacheGet c "uuid") = false then
          match OrganizationRadiusSettings.objects_get store uuid token with
          | some inst => ⟨.ok uuid, true, cacheSet c inst.pk inst.token⟩
          | none => ⟨.error (.authenticationFailed tokenAuthFailedMsg), true, c⟩
        else if cacheGet c uuid ≠ some token then
          ⟨.error (.authenticationFailed tokenAuthFailedMsg), false, c⟩
        else
          ⟨.ok uuid, false, c⟩

/-- The outcome is a raised AuthenticationFailed (any message). -/
def AuthOutcome.failedAuth (o : AuthOutcome) : Prop :=
  ∃ msg, o.result = .error (.authenticationFailed msg)

/-- An OrganizationUser membership row of openwisp_users (not under
src/): modelled from the spec as the bare pair of a user and an
organization id. -/
structure OrganizationUser where
  user : String
  organization : String
deriving DecidableEq, Repr

/-- OrganizationUser.objects.filter(user=..., organization_id=...)
.exists(): some membership row links the user to the organization. -/
def membershipExists (rows : List OrganizationUser) (u orgId : String) :
    Bool :=
  rows.any (fun m => m.user == u && m.organization == orgId)

/-- AuthorizeView.get_user: the user found by the base class lookup
(django_freeradius, an external collaborator, so its result is a
parameter), demoted to None when it exists but has no membership row
for the authenticated organization (request.auth). A user object is
truthy, None is falsy, so the membership test runs only on a found
user. -/
def AuthorizeView.get_user (baseUser : Option String) (auth : String)
    (rows : List OrganizationUser) : Option String :=
  match baseUser with
  | some u => if membershipExists rows u auth then some u else none
  | none => none

/-- A RADIUS accounting row as far as this layer reads it: its
organization id and an opaque payload standing for all other columns. -/
structure RadAccounting where
  organization : String
  session : String
deriving DecidableEq, Repr

/-- AccountingView.get_queryset: the base queryset (external base
class, so a parameter) filtered to rows whose organization equals the
authenticated organization (self.request.auth). -/
def AccountingView.get_queryset (base : List RadAccounting)
    (auth : String) : List RadAccounting :=
  base.filter (fun rec => rec.organization == auth)

/-- An Organization of openwisp_users (not under src/): modelled from
the spec as unique id (pk), human-readable slug, name. -/
structure Organization where
  pk : String
  slug : String
  name : String
deriving DecidableEq, Repr

/-- Organization.objects.get(slug=...) as performed by
DispatchOrgMixin.dispatch: the organization matching the URL slug,
none when it does not exist (the view then raises Http404). Under
unique slugs find? coincides with Django get. -/
def DispatchOrgMixin.resolve_org (orgs : List Organization)
    (slug : String) : Option Organization :=
  orgs.find? (fun o => o.slug == slug)

/-- Modelled from the spec: Organization.add_user of openwisp_users
(not under src/) records the user as a member of the organization,
inserting a membership row. -/
def Organization.add_user (org : Organization)
    (rows : List OrganizationUser) (u : String) : List OrganizationUser :=
  ⟨u, org.pk⟩ :: rows

/-- RegisterView.perform_create: the base class creates the user (the
created user is a parameter, the base being external), then
self.organization.add_user(user) runs before the user is returned. The
result is the returned user together with the membership table
afterwards. -/
def RegisterView.perform_create (createdUser : String)
    (org : Organization) (rows : List OrganizationUser) :
    String × List OrganizationUser :=
  (createdUser, org.add_user rows createdUser)

/-- The user object validated by the external AuthTokenSerializer, as
far as ObtainAuthTokenView.post reads it: username and the list of
organization pks the user belongs to (user.organizations_pk, flattened
from its one-element tuples). -/
structure AuthUser where
  username : String
  organizations_pk : List String
deriving DecidableEq, Repr

/-- The failures of ObtainAuthTokenView.post: the generic
invalid-credentials failure raised by the external serializer during
is_valid(raise_exception=True), and the membership ValidationError
raised by the view itself, carrying its message. -/
inductive LoginError where
  | credentialError
  | membershipError (msg : String)
deriving DecidableEq, Repr

/-- The membership-error message format of ObtainAuthTokenView.post. -/
def notMemberMsg (username slug : String) : String :=
  "User \"" ++ username ++ "\" is not member of \"" ++ slug ++ "\""

/-- ObtainAuthTokenView.post: the external serializer validates the
credentials (its outcome is a parameter; raising is Except.error).
When valid, the view fails with a ValidationError naming the user and
the slug unless the organization pk is among the user memberships;
otherwise Token.objects.get_or_create reuses the existing token row of
the user or creates one with a fresh key, and the token key is
returned. The result is the response or raised error together with the
token table afterwards. -/
def ObtainAuthTokenView.post (credResult : Except Unit AuthUser)
    (org : Organization) (slug : String)
    (tokens : List (String × String)) (freshKey : String) :
    Except LoginError String × List (String × String) :=
  match credResult with
  | .error _ => (.error .credentialError, tokens)
  | .ok user =>
    if org.pk ∉ user.organizations_pk then
      (.error (.membershipError (notMemberMsg user.username slug)), tokens)
    else
      match tokens.find? (fun p => p.1 == user.username) with
      | some p => (.ok p.2, tokens)
      | none => (.ok freshKey, (user.username, freshKey) :: tokens)

/-! ## Helper lemmas -/

lemma objects_get_none_of_no_match (store : List OrganizationRadiusSettings)
    (u t : String) (h : ∀ s ∈ store, s.organization = u → s.token ≠ t) :
    OrganizationRadiusSettings.objects_get store u t = none := by
  apply List.find?_eq_none.mpr
  intro s hs
  simp only [Bool.and_eq_true, beq_iff_eq, not_and]
  exact fun h1 h2 => h s hs h1 h2

lemma objects_get_some_fields (store : List OrganizationRadiusSettings)
    (u t : String) (s : OrganizationRadiusSettings)
    (h : OrganizationRadiusSettings.objects_get store u t = some s) :
    s.organization = u ∧ s.token = t := by
  have hp := List.find?_some h
  simpa [Bool.and_eq_true, beq_iff_eq] using hp

lemma cacheGet_set_self (c : Cache) (k v : String) :
    cacheGet (cacheSet c k v) k = some v := by
  simp [cacheGet, cacheSet, List.find?]

/-! ## Claim theorems -/

/-- Claim C4: for every request whose body carries an explicit
organization field, TokenAuthentication.authenticate raises
AuthenticationFailed before any credential extraction, cache access or
store lookup: the outcome is exactly the check_organization failure,
the store is not queried and the cache is unchanged, for every request
(including requests with valid credentials or a malformed header,
whose ParseError is never reached) and every cache and store state. -/
theorem C4_explicit_org_field_rejected_first (r : Request) (c : Cache)
    (store : List OrganizationRadiusSettings)
    (horg : "organization" ∈ r.data) :
    TokenAuthentication.authenticate r c store
      = ⟨.error (.authenticationFailed orgParamMsg), false, c⟩ := by
  simp [TokenAuthentication.authenticate,
    TokenAuthentication.check_organization, horg]

/-- Claim C4 witness: a request carrying the organization body field,
valid credentials for the stored organization and a malformed
Authorization header is rejected with AuthenticationFailed (not
ParseError), without a store query and leaving the cache unchanged. -/
theorem C4_witness :
    "organization" ∈ (["organization"] : List String)
    ∧ TokenAuthentication.authenticate
        ⟨some "U1", some "T1", some "Token abc", ["organization"]⟩
        [] [⟨"U1", "T1"⟩]
      = ⟨.error (.authenticationFailed orgParamMsg), false, []⟩ :=
  ⟨by decide,
    C4_explicit_org_field_rejected_first
      ⟨some "U1", some "T1", some "Token abc", ["organization"]⟩
      [] [⟨"U1", "T1"⟩] (by decide)⟩

/-- Claim C2 (code bug): with a warm, matching cache entry for the
presented organization ("U1" maps to "T1" in the cache) and a valid
(organization, token) pair, authentication succeeds but the credential
store IS queried, because the source decides cache warmth by the
literal key "uuid" (cache.get with a quoted string) instead of the
presented identifier, so the per-organization entry never suppresses
the lookup. -/
theorem C2_warm_cache_still_queries_store :
    cacheGet [("U1", "T1")] "U1" = some "T1"
    ∧ (TokenAuthentication.authenticate ⟨some "U1", some "T1", none, []⟩
        [("U1", "T1")] [⟨"U1", "T1"⟩]).storeQueried = true
    ∧ (TokenAuthentication.authenticate ⟨some "U1", some "T1", none, []⟩
        [("U1", "T1")] [⟨"U1", "T1"⟩]).result = .ok "U1" := by
  decide

/-- Claim C3 counterexample: the cache holds no entry for the presented
organization "U1" yet authentication of the valid pair ("U1", "T1")
fails, because the cache also holds a truthy value under the literal
sentinel key "uuid", which the source reads as cache warmth and then
compares the absent per-organization entry against the token. -/
theorem C3_counterexample_sentinel_key :
    cacheGet [("uuid", "x")] "U1" = none
    ∧ OrganizationRadiusSettings.objects_get [⟨"U1", "T1"⟩] "U1" "T1"
        = some ⟨"U1", "T1"⟩
    ∧ (TokenAuthentication.authenticate ⟨some "U1", some "T1", none, []⟩
        [("uuid", "x")] [⟨"U1", "T1"⟩]).result
      = .error (.authenticationFailed tokenAuthFailedMsg) := by
  decide

/-- Claim C3 as amended: for every valid (organization, token) pair
presented while the cache holds no entry for that organization AND no
truthy value under the literal sentinel key "uuid" (the key the source
tests for cache warmth), authenticate succeeds and afterwards the
cache maps that organization identifier to that token (the stored
record's primary key being its unique organization id). -/
theorem C3_cold_cache_success_populates (r : Request) (c : Cache)
    (store : List OrganizationRadiusSettings) (u t : String)
    (inst : OrganizationRadiusSettings)
    (hext : TokenAuthentication.get_uuid_token r = .ok (some u, some t))
    (horg : "organization" ∉ r.data)
    (hu : u ≠ "") (ht : t ≠ "")
    (_hcold : cacheGet c u = none)
    (hsent : truthy (cacheGet c "uuid") = false)
    (hvalid : OrganizationRadiusSettings.objects_get store u t = some inst) :
    (TokenAuthentication.authenticate r c store).result = .ok u
    ∧ cacheGet (TokenAuthentication.authenticate r c store).cache u
        = some t := by
  have hfields := objects_get_some_fields store u t inst hvalid
  have hfal : ¬ (truthy (some u) = false ∨ truthy (some t) = false) := by
    simp [truthy, hu, ht]
  have hres : TokenAuthentication.authenticate r c store
      = ⟨.ok u, true, cacheSet c inst.pk inst.token⟩ := by
    simp [TokenAuthentication.authenticate,
      TokenAuthentication.check_organization, horg, hext, hfal, hsent, hvalid]
  rw [hres]
  refine ⟨rfl, ?_⟩
  rw [OrganizationRadiusSettings.pk, hfields.1, hfields.2]
  exact cacheGet_set_self c u t

/-- Claim C3 witness: with an empty cache the valid pair ("U1", "T1")
authenticates and the cache afterwards maps "U1" to "T1". -/
theorem C3_witness :
    TokenAuthentication.get_uuid_token ⟨some "U1", some "T1", none, []⟩
      = .ok (some "U1", some "T1")
    ∧ "organization" ∉ ([] : List String)
    ∧ "U1" ≠ "" ∧ "T1" ≠ ""
    ∧ cacheGet [] "U1" = none
    ∧ truthy (cacheGet [] "uuid") = false
    ∧ OrganizationRadiusSettings.objects_get [⟨"U1", "T1"⟩] "U1" "T1"
        = some ⟨"U1", "T1"⟩
    ∧ ((TokenAuthentication.authenticate ⟨some "U1", some "T1", none, []⟩
          [] [⟨"U1", "T1"⟩]).result = .ok "U1"
        ∧ cacheGet (TokenAuthentication.authenticate
            ⟨some "U1", some "T1", none, []⟩ [] [⟨"U1", "T1"⟩]).cache "U1"
          = some "T1") :=
  ⟨by decide, by decide, by decide, by decide, by decide, by decide,
    by decide,
    C3_cold_cache_success_populates ⟨some "U1", some "T1", none, []⟩
      [] [⟨"U1", "T1"⟩] "U1" "T1" ⟨"U1", "T1"⟩ (by decide) (by decide)
      (by decide) (by decide) (by decide) (by decide) (by decide)⟩

/-- Claim C1: whenever credential extraction yields an organization
identifier and a token such that the token differs from the cached
value for that identifier and from the token of every stored settings
record of that organization, authenticate raises AuthenticationFailed
— for every cache and store state, so in particular even when the
presented token is the valid token of a different organization (the
store may hold a record of another organization with exactly that
token). -/
theorem C1_mismatched_token_rejected (r : Request) (c : Cache)
    (store : List OrganizationRadiusSettings) (u t : String)
    (hext : TokenAuthentication.get_uuid_token r = .ok (some u, some t))
    (hcache : cacheGet c u ≠ some t)
    (hstore : ∀ s ∈ store, s.organization = u → s.token ≠ t) :
    (TokenAuthentication.authenticate r c store).failedAuth := by
  by_cases horg : "organization" ∈ r.data
  · exact ⟨orgParamMsg, by
      simp [TokenAuthentication.authenticate,
        TokenAuthentication.check_organization, horg]⟩
  · refine ⟨tokenAuthFailedMsg, ?_⟩
    by_cases hfal : truthy (some u) = false ∨ truthy (some t) = false
    · simp [TokenAuthentication.authenticate,
        TokenAuthentication.check_organization, horg, hext, hfal]
    · by_cases hsent : truthy (cacheGet c "uuid") = false
      · have hnone := objects_get_none_of_no_match store u t hstore
        simp [TokenAuthentication.authenticate,
          TokenAuthentication.check_organization, horg, hext, hfal, hsent,
          hnone]
      · simp [TokenAuthentication.authenticate,
          TokenAuthentication.check_organization, horg, hext, hfal, hsent,
          hcache]

/-- Claim C1 witness: the token "T2" is the valid token of organization
"U2" in the store, yet presenting it for organization "U1" (whose
stored token is "T1", with an empty cache) fails authentication: no
cross-tenant acceptance. -/
theorem C1_witness :
    TokenAuthentication.get_uuid_token ⟨some "U1", some "T2", none, []⟩
      = .ok (some "U1", some "T2")
    ∧ cacheGet [] "U1" ≠ some "T2"
    ∧ (∀ s ∈ ([⟨"U1", "T1"⟩, ⟨"U2", "T2"⟩] :
          List OrganizationRadiusSettings),
        s.organization = "U1" → s.token ≠ "T2")
    ∧ (TokenAuthentication.authenticate ⟨some "U1", some "T2", none, []⟩
        [] [⟨"U1", "T1"⟩, ⟨"U2", "T2"⟩]).failedAuth :=
  ⟨by decide, by decide, by decide,
    C1_mismatched_token_rejected ⟨some "U1", some "T2", none, []⟩
      [] [⟨"U1", "T1"⟩, ⟨"U2", "T2"⟩] "U1" "T2" (by decide) (by decide)
      (by decide)⟩

/-- Claim C5: when the base user lookup finds a user that has no
membership row linking it to the authenticated organization,
AuthorizeView.get_user returns none, exactly the result it returns
when the base lookup finds no user at all, so a non-member user is
indistinguishable from a nonexistent one. -/
theorem C5_nonmember_like_missing_user (rows : List OrganizationUser)
    (auth u : String) (h : membershipExists rows u auth = false) :
    AuthorizeView.get_user (some u) auth rows = none
    ∧ AuthorizeView.get_user (some u) auth rows
        = AuthorizeView.get_user none auth rows := by
  simp [AuthorizeView.get_user, h]

/-- Claim C5 witness: the user bob, a member of organization OA only,
is reported as none by an authorize lookup authenticated for OB, just
like a nonexistent user. -/
theorem C5_witness :
    membershipExists [⟨"bob", "OA"⟩] "bob" "OB" = false
    ∧ (AuthorizeView.get_user (some "bob") "OB" [⟨"bob", "OA"⟩] = none
        ∧ AuthorizeView.get_user (some "bob") "OB" [⟨"bob", "OA"⟩]
          = AuthorizeView.get_user none "OB" [⟨"bob", "OA"⟩]) :=
  ⟨by decide,
    C5_nonmember_like_missing_user [⟨"bob", "OA"⟩] "OB" "bob" (by decide)⟩

/-- Claim C6: every row of the result of AccountingView.get_queryset
has the authenticated organization, and no row of any other
organization is ever returned, whatever the base queryset holds. -/
theorem C6_accounting_rows_org_scoped (base : List RadAccounting)
    (auth : String) (row : RadAccounting)
    (h : row ∈ AccountingView.get_queryset base auth) :
    row.organization = auth
    ∧ ∀ other : String, other ≠ auth → row.organization ≠ other := by
  have hm := List.mem_filter.mp h
  have heq : row.organization = auth := by simpa using hm.2
  exact ⟨heq, fun other hne => by
    rw [heq]; exact fun hcontra => hne hcontra.symm⟩

/-- Claim C6 witness: with a base queryset holding rows of both A and
B, the row of A returned by a listing scoped to A has organization A
and not B. -/
theorem C6_witness :
    (⟨"A", "s1"⟩ : RadAccounting)
        ∈ AccountingView.get_queryset [⟨"A", "s1"⟩, ⟨"B", "s2"⟩] "A"
    ∧ ((⟨"A", "s1"⟩ : RadAccounting).organization = "A"
        ∧ ∀ other : String, other ≠ "A" →
            (⟨"A", "s1"⟩ : RadAccounting).organization ≠ other) :=
  ⟨by decide,
    C6_accounting_rows_org_scoped [⟨"A", "s1"⟩, ⟨"B", "s2"⟩] "A"
      ⟨"A", "s1"⟩ (by decide)⟩

/-- Claim C7: when base credential validation succeeds but the user is
not a member of the slug-resolved organization, ObtainAuthTokenView.post
raises a ValidationError whose message names the user and the
organization slug, distinct from the credential failure of the
serializer, and the token table is unchanged (no token issued). -/
theorem C7_login_membership_error (user : AuthUser) (org : Organization)
    (slug : String) (tokens : List (String × String)) (freshKey : String)
    (h : org.pk ∉ user.organizations_pk) :
    ObtainAuthTokenView.post (.ok user) org slug tokens freshKey
      = (.error (.membershipError (notMemberMsg user.username slug)),
          tokens)
    ∧ notMemberMsg user.username slug
        = "User \"" ++ user.username ++ "\" is not member of \""
            ++ slug ++ "\""
    ∧ ∀ msg : String,
        LoginError.membershipError msg ≠ LoginError.credentialError := by
  refine ⟨?_, rfl, fun msg hcontra => by cases hcontra⟩
  simp [ObtainAuthTokenView.post, h]

/-- Claim C7 witness: bob, validated but a member of OA only, is
rejected by the login endpoint of the organization with pk OB and slug
org-b with the membership message naming bob and org-b, and no token
row is created. -/
theorem C7_witness :
    ("OB" : String) ∉ (["OA"] : List String)
    ∧ (ObtainAuthTokenView.post (.ok ⟨"bob", ["OA"]⟩)
          ⟨"OB", "org-b", "Org B"⟩ "org-b" [] "k1"
        = (.error (.membershipError (notMemberMsg "bob" "org-b")), [])
        ∧ notMemberMsg "bob" "org-b"
          = "User \"" ++ "bob" ++ "\" is not member of \""
              ++ "org-b" ++ "\""
        ∧ ∀ msg : String,
            LoginError.membershipError msg ≠ LoginError.credentialError) :=
  ⟨by decide,
    C7_login_membership_error ⟨"bob", ["OA"]⟩ ⟨"OB", "org-b", "Org B"⟩
      "org-b" [] "k1" (by decide)⟩

/-- Claim C8: when the dispatch step resolves the URL slug to an
organization, the user created by RegisterView.perform_create is
returned unchanged and a membership row linking that user to the
resolved organization exists immediately after perform_create returns
(the resolved organization indeed carries the requested slug). -/
theorem C8_registration_creates_membership (orgs : List Organization)
    (slug : String) (org : Organization) (rows : List OrganizationUser)
    (createdUser : String)
    (hres : DispatchOrgMixin.resolve_org orgs slug = some org) :
    org.slug = slug
    ∧ (RegisterView.perform_create createdUser org rows).1 = createdUser
    ∧ membershipExists
        (RegisterView.perform_create createdUser org rows).2
        createdUser org.pk = true := by
  refine ⟨?_, rfl, ?_⟩
  · have hp := List.find?_some hres
    simpa using hp
  · simp [RegisterView.perform_create, Organization.add_user,
      membershipExists]

/-- Claim C8 witness: registering carol under slug org-a resolves the
organization with pk OA and leaves carol a member of OA. -/
theorem C8_witness :
    DispatchOrgMixin.resolve_org [⟨"OA", "org-a", "Org A"⟩] "org-a"
      = some ⟨"OA", "org-a", "Org A"⟩
    ∧ ((⟨"OA", "org-a", "Org A"⟩ : Organization).slug = "org-a"
        ∧ (RegisterView.perform_create "carol"
            ⟨"OA", "org-a", "Org A"⟩ []).1 = "carol"
        ∧ membershipExists
            (RegisterView.perform_create "carol"
              ⟨"OA", "org-a", "Org A"⟩ []).2 "carol"
            (⟨"OA", "org-a", "Org A"⟩ : Organization).pk = true) :=
  ⟨by decide,
    C8_registration_creates_membership [⟨"OA", "org-a", "Org A"⟩]
      "org-a" ⟨"OA", "org-a", "Org A"⟩ [] "carol" (by decide)⟩

/-- Claim C9: a request whose Authorization header splits into fewer
than three space-separated parts makes get_uuid_token raise ParseError
(the request-format error, not AuthenticationFailed), whatever uuid
and token query parameters are present; authenticate propagates that
ParseError whenever the body does not carry the explicit organization
field (which is rejected earlier with AuthenticationFailed). -/
theorem C9_short_header_parse_error (r : Request) (hdr : String)
    (c : Cache) (store : List OrganizationRadiusSettings)
    (hh : r.HTTP_AUTHORIZATION = some hdr)
    (hlen : (pySplitSpace hdr).length < 3) :
    TokenAuthentication.get_uuid_token r
      = .error (.parseError invalidTokenMsg)
    ∧ ("organization" ∉ r.data →
        (TokenAuthentication.authenticate r c store).result
          = .error (.parseError invalidTokenMsg)) := by
  have h2 : (pySplitSpace hdr)[2]? = none :=
    List.getElem?_eq_none (by omega)
  have hmain : TokenAuthentication.get_uuid_token r
      = .error (.parseError invalidTokenMsg) := by
    cases h1 : (pySplitSpace hdr)[1]? <;>
      simp [TokenAuthentication.get_uuid_token, hh, h1, h2]
  refine ⟨hmain, fun horg => ?_⟩
  simp [TokenAuthentication.authenticate,
    TokenAuthentication.check_organization, horg, hmain]

/-- Claim C9 witness: the header Token abc (two parts, no token value)
yields ParseError even though valid query credentials for the stored
organization are also present. -/
theorem C9_witness :
    (⟨some "U1", some "T1", some "Token abc", []⟩ : Request).HTTP_AUTHORIZATION
      = some "Token abc"
    ∧ (pySplitSpace "Token abc").length < 3
    ∧ (TokenAuthentication.get_uuid_token
          ⟨some "U1", some "T1", some "Token abc", []⟩
        = .error (.parseError invalidTokenMsg)
        ∧ ("organization" ∉
              (⟨some "U1", some "T1", some "Token abc", []⟩ : Request).data →
            (TokenAuthentication.authenticate
                ⟨some "U1", some "T1", some "Token abc", []⟩
                [] [⟨"U1", "T1"⟩]).result
              = .error (.parseError invalidTokenMsg))) :=
  ⟨by decide, by decide,
    C9_short_header_parse_error
      ⟨some "U1", some "T1", some "Token abc", []⟩ "Token abc"
      [] [⟨"U1", "T1"⟩] (by decide) (by decide)⟩

/-- Claim C10: when a well-formed Authorization header is present,
get_uuid_token returns parts one and two of the header (zero-based:
the parts after the scheme), whatever the uuid and token query
parameters hold — the result does not depend on the query parameters,
and depends on the header only through those two parts, so the scheme
and any parts beyond the third are never examined. -/
theorem C10_header_parts_override_query (r : Request) (hdr u t : String)
    (hh : r.HTTP_AUTHORIZATION = some hdr)
    (h1 : (pySplitSpace hdr)[1]? = some u)
    (h2 : (pySplitSpace hdr)[2]? = some t) :
    TokenAuthentication.get_uuid_token r = .ok (some u, some t)
    ∧ ∀ qu qt : Option String,
        TokenAuthentication.get_uuid_token ⟨qu, qt, some hdr, r.data⟩
          = .ok (some u, some t) := by
  constructor
  · simp [TokenAuthentication.get_uuid_token, hh, h1, h2]
  · intro qu qt
    simp [TokenAuthentication.get_uuid_token, h1, h2]

/-- Claim C10 witness: with query parameters QU and QT and the header
Bearer HU HT extra, the extracted pair is (HU, HT): the header values
win, the scheme Bearer and the fourth part extra are ignored. -/
theorem C10_witness :
    (⟨some "QU", some "QT", some "Bearer HU HT extra", []⟩
        : Request).HTTP_AUTHORIZATION = some "Bearer HU HT extra"
    ∧ (pySplitSpace "Bearer HU HT extra")[1]? = some "HU"
    ∧ (pySplitSpace "Bearer HU HT extra")[2]? = some "HT"
    ∧ (TokenAuthentication.get_uuid_token
          ⟨some "QU", some "QT", some "Bearer HU HT extra", []⟩
        = .ok (some "HU", some "HT")
        ∧ ∀ qu qt : Option String,
            TokenAuthentication.get_uuid_token
                ⟨qu, qt, some "Bearer HU HT extra", []⟩
              = .ok (some "HU", some "HT")) :=
  ⟨by decide, by decide, by decide,
    C10_header_parts_override_query
      ⟨some "QU", some "QT", some "Bearer HU HT extra", []⟩
      "Bearer HU HT extra" "HU" "HT" (by decide) (by decide) (by decide)⟩

end OpenwispRadius
